import Mathlib

/-!
Verification development for the WarFront.io API authentication core.

The definitions below are a shallow embedding of the TypeScript source:

* `TokenBucket` embeds `src/util/TokenBucket.ts` — times are rational
  milliseconds (the JS `Date.now()` value), token counts are rationals.
* `AuthM` embeds the `AuthenticationManager` of `src/auth/TokenManager.ts`
  (CSRF state table, hand-off token table, login/response/initial-token
  handlers, `verifyRequest`, `authService`).
* `Signer` embeds `generateToken`/`verifyToken` of `src/auth/TokenManager.ts`
  together with the id codec of `src/util/IdPrettifier.ts`.
* `DeviceStore` embeds the `account_tokens` SQL operations of
  `src/db/adapters/AuthenticationAdapter.ts`.

JS `Map`s are embedded as association lists where `set` replaces the key's
entry and `get` returns an `Option`; stateful methods are embedded as
explicit state-passing functions returning a pair of result and new state.
-/

namespace WF

/-- Association-list lookup, embedding JS `Map.prototype.get` (`none` for a
missing key). -/
def mapGet {α : Type} (m : List (String × α)) (k : String) : Option α :=
  (m.find? (fun p => p.1 == k)).map (fun p => p.2)

/-- Remove every entry for a key, embedding JS `Map.prototype.delete`. -/
def mapErase {α : Type} (m : List (String × α)) (k : String) : List (String × α) :=
  m.filter (fun p => p.1 != k)

/-- Insert or replace the entry for a key, embedding JS `Map.prototype.set`. -/
def mapSet {α : Type} (m : List (String × α)) (k : String) (v : α) : List (String × α) :=
  (k, v) :: mapErase m k

/-! ## TokenBucket (`src/util/TokenBucket.ts`)

The constructor takes the refill rate in tokens per second and stores
`refillRate / 1000` (tokens per millisecond); all methods read the clock in
milliseconds. -/

/-- State of one `TokenBucket` instance: capacity, stored per-millisecond
refill rate, and the per-key map of virtual "tokens used" counters. -/
structure TokenBucket where
  capacity : ℚ
  refillRate : ℚ
  tokens : List (String × ℚ)
  deriving Repr, DecidableEq

/-- Embeds `new TokenBucket(capacity, refillRate)`: stores `refillRate / 1000`
and an empty map. -/
def TokenBucket.create (capacity ratePerSecond : ℚ) : TokenBucket :=
  { capacity := capacity, refillRate := ratePerSecond / 1000, tokens := [] }

/-- Embeds `TokenBucket.consume(key, tokens)` at clock value `now`:
`tokensUsed + tokens > now * refillRate` rejects; otherwise the key's counter
becomes `max (tokensUsed + tokens) (now * refillRate - capacity + tokens)`.
(JS `this.tokens.get(key) || 0` sends both a missing key and a stored `0`
to `0`, which `Option.getD 0` matches.) -/
def TokenBucket.consume (b : TokenBucket) (now : ℚ) (key : String) (tokens : ℚ) :
    Bool × TokenBucket :=
  let tokensUsed := (mapGet b.tokens key).getD 0
  let totalTokens := now * b.refillRate
  if tokensUsed + tokens > totalTokens then (false, b)
  else
    (true, { b with
      tokens := mapSet b.tokens key
        (max (tokensUsed + tokens) (totalTokens - b.capacity + tokens)) })

/-- Embeds `TokenBucket.canConsume(key, tokens)`: pure read; the state component of
the result is the input state because the method body contains no write. -/
def TokenBucket.canConsume (b : TokenBucket) (now : ℚ) (key : String) (tokens : ℚ) :
    Bool × TokenBucket :=
  let tokensUsed := (mapGet b.tokens key).getD 0
  let totalTokens := now * b.refillRate
  (decide (tokensUsed + tokens ≤ totalTokens), b)

/-- Embeds `TokenBucket.timeUntilRefill(key, tokens)`: pure read returning
`max 0 ((used + tokens) / refillRate - now)` milliseconds. -/
def TokenBucket.timeUntilRefill (b : TokenBucket) (now : ℚ) (key : String) (tokens : ℚ) :
    ℚ × TokenBucket :=
  (max 0 (((mapGet b.tokens key).getD 0 + tokens) / b.refillRate - now), b)

/-- A burst of `n` single-token `consume` calls for one key at one instant,
returning the list of per-call results and the final bucket state. -/
def TokenBucket.burst (b : TokenBucket) (now : ℚ) (key : String) : ℕ → List Bool × TokenBucket
  | 0 => ([], b)
  | n + 1 =>
    let r := TokenBucket.burst b now key n
    let s := TokenBucket.consume r.2 now key 1
    (r.1 ++ [s.1], s.2)

/-! ## Id codec (`src/util/IdPrettifier.ts`)

The source delegates to the external Sqids library (`minLength: 6`,
configurable alphabet). Per the library's contract — and the repository
spec's design note that the obfuscated-id encoding is a freely substitutable
bijection over the id space with minimum length 6 — we embed it as a concrete
executable bijection: `decode (encode n) = [n]`, every output has length at
least 6, and strings outside the image decode to `[]`. -/

/-- Executable stand-in for `sqids.encode([n])`: a length-`(n+6)` string. -/
def sqidsEncode (n : ℕ) : String :=
  String.mk (Char.ofNat 115 :: List.replicate (n + 5) (Char.ofNat 113))

/-- Executable stand-in for `sqids.decode(s)`: inverse of `sqidsEncode` on
its image, `[]` elsewhere. -/
def sqidsDecode (s : String) : List ℕ :=
  match s.data with
  | c :: rest =>
    if c = Char.ofNat 115 ∧ rest.all (fun d => d = Char.ofNat 113) ∧ 5 ≤ rest.length
    then [rest.length - 5] else []
  | [] => []

/-- Embeds `prettifyId(id)` from `src/util/IdPrettifier.ts`. -/
def prettifyId (id : ℕ) : String := sqidsEncode id

/-- Embeds `unprettifyId(id)` from `src/util/IdPrettifier.ts`: `undefined` unless the
decode yields exactly one number. -/
def unprettifyId (id : String) : Option ℕ :=
  match sqidsDecode id with
  | [d] => some d
  | _ => none

/-! ## Signer (`src/auth/TokenManager.ts`)

`generateToken` / `verifyToken` use jsonwebtoken RS256 with the process key
pair. The embedding is the standard symbolic-crypto model: a token is its
decoded payload plus a `validSig` flag recording whether it was produced
under the process private key (signatures are unforgeable, so only tokens
built by `generateToken`/`generateExternalToken` carry `validSig = true`).
JWT times are rational seconds; `expiresIn: 60 * 15` makes `exp = iat + 900`;
jsonwebtoken rejects as expired when the clock has reached `exp`.
The `typeof ... === "string"` shape checks of `verifyToken` hold by
construction here because the payload fields are typed `String`. -/

/-- Embeds `APIUser` (`id` is the obfuscated string id). -/
structure APIUser where
  id : String
  service : String
  user_id : String
  username : String
  avatar_url : String
  deriving Repr, DecidableEq

/-- Embeds `User` (`id` is the internal numeric id). -/
structure User where
  id : ℕ
  service : String
  user_id : String
  username : String
  avatar_url : String
  deriving Repr, DecidableEq

/-- Symbolic signed JWT: payload of `sign({type, ...user}, ...)` plus
issue/expiry times (seconds), optional audience, and signature validity. -/
structure Jwt where
  type : String
  payload : APIUser
  iat : ℚ
  exp : ℚ
  aud : Option String
  validSig : Bool
  deriving Repr, DecidableEq

/-- Embeds `generateToken(user)` issued at `nowSec`: signs `{type: "user", ...user}`
with `expiresIn: 60 * 15`; the resolved object also carries
`expiresIn = 900`. -/
def generateToken (user : APIUser) (nowSec : ℚ) : Jwt × ℚ :=
  ({ type := "user", payload := user, iat := nowSec, exp := nowSec + 900,
     aud := none, validSig := true }, 900)

/-- Embeds `verifyToken(token)` checked at `nowSec`: rejects on bad signature,
expiry, a `type` other than `"user"`, or a falsy decoded id (`!id` rejects
both a failed decode and a decoded `0`); otherwise resolves the `User`. -/
def verifyToken (t : Jwt) (nowSec : ℚ) : Option User :=
  if t.validSig = false then none
  else if t.exp ≤ nowSec then none
  else if t.type ≠ "user" then none
  else
    match unprettifyId t.payload.id with
    | none => none
    | some i =>
      if i = 0 then none
      else some { id := i, service := t.payload.service, user_id := t.payload.user_id,
                  username := t.payload.username, avatar_url := t.payload.avatar_url }

/-! ## AuthenticationManager (`src/auth/TokenManager.ts`)

Randomness (`randomBytes(...)`), the bound `AuthenticationService`, and DB
round-trips are inputs of the embedded handlers: the freshly minted value,
the service's `getState`/`handleResponse` results, and the adapter call's
outcome are passed as arguments. Responses are embedded as status, body,
optional redirect target and optional Retry-After seconds. -/

/-- Embedded HTTP response. -/
structure HttpResponse where
  status : ℕ
  body : String
  location : Option String
  retryAfter : Option ℤ
  deriving Repr, DecidableEq

/-- Embeds `new Response(body, \x7bstatus\x7d)`. -/
def resp (status : ℕ) (body : String) : HttpResponse :=
  { status := status, body := body, location := none, retryAfter := none }

/-- Embeds `Response.redirect(url)` (302). -/
def redirectResp (url : String) : HttpResponse :=
  { status := 302, body := "", location := some url, retryAfter := none }

/-- One `activeStates` entry: CSRF deadline (ms), client state, redirect. -/
structure StateEntry where
  timeout : ℚ
  clientState : String
  redirect : String
  deriving Repr, DecidableEq

/-- One `authTokens` (hand-off) entry: account id and deadline (ms). -/
structure AuthTokenEntry where
  id : ℕ
  expiresAt : ℚ
  deriving Repr, DecidableEq

/-- Embeds `handleLogin(service, searchParams)` with the minted `randomBytes` state
as input `freshState` and the service's login URL builder as a function:
rejects when `state`/`redirect` reach length 40 or the redirect is not
allow-listed; otherwise records the CSRF entry with deadline now + 15 min and
302-redirects to the provider. -/
def handleLogin (allowedHosts : List String) (getLoginRedirect : String → String)
    (states : List (String × StateEntry)) (now : ℚ) (freshState : String)
    (stateParam redirectParam : Option String) :
    HttpResponse × List (String × StateEntry) :=
  let clientState := stateParam.getD ""
  let redirect := redirectParam.getD ""
  if 40 ≤ clientState.length ∨ 40 ≤ redirect.length ∨ redirect ∉ allowedHosts then
    (resp 400 "Bad Request", states)
  else
    (redirectResp (getLoginRedirect freshState),
     mapSet states freshState
       { timeout := now + 15 * 60 * 1000, clientState := clientState, redirect := redirect })

/-- Embeds `handleResponse(service, searchParams)`: `stateParam` is the service's
`getState` result (JS falsy check sends `null` and `""` to reject),
`exchange` the provider exchange outcome, `freshTok` the minted hand-off
token. Unknown or expired state rejects with 400 and no mutation; a live
state is deleted, then the exchange result either stores a 10-second
hand-off entry and redirects, or surfaces 422. -/
def handleResponse (states : List (String × StateEntry))
    (authTokens : List (String × AuthTokenEntry)) (now : ℚ)
    (stateParam : Option String) (exchange : Except String ℕ) (freshTok : String) :
    HttpResponse × List (String × StateEntry) × List (String × AuthTokenEntry) :=
  let s := stateParam.getD ""
  if s = "" then (resp 400 "Bad Request", states, authTokens)
  else
    match mapGet states s with
    | none => (resp 400 "Bad Request", states, authTokens)
    | some entry =>
      if entry.timeout < now then (resp 400 "Bad Request", states, authTokens)
      else
        let newStates := mapErase states s
        match exchange with
        | .ok id =>
          (redirectResp (entry.redirect ++ "/?token=" ++ freshTok ++
             (if entry.clientState ≠ "" then "&state=" ++ entry.clientState else "")),
           newStates, mapSet authTokens freshTok { id := id, expiresAt := now + 10 * 1000 })
        | .error msg => (resp 422 msg, newStates, authTokens)

/-- Embeds `handleInitialToken(body)`: missing token → 400; unknown → 401
"Invalid token"; expired → 401 "Token expired, please try again"; otherwise
the entry is deleted before `registerDevice` runs (outcome `registerResult`),
then 500 on store failure or 200 with the refresh token. -/
def handleInitialToken (authTokens : List (String × AuthTokenEntry)) (now : ℚ)
    (tokenParam : Option String) (registerResult : Option String) :
    HttpResponse × List (String × AuthTokenEntry) :=
  let t := tokenParam.getD ""
  if t = "" then (resp 400 "Bad Request", authTokens)
  else
    match mapGet authTokens t with
    | none => (resp 401 "Invalid token", authTokens)
    | some entry =>
      if entry.expiresAt < now then (resp 401 "Token expired, please try again", authTokens)
      else
        let newTokens := mapErase authTokens t
        match registerResult with
        | none => (resp 500 "Failed to generate refresh token", newTokens)
        | some refreshToken => (resp 200 refreshToken, newTokens)

/-- Authorization header of a user request: absent, present without the
`"Bearer "` scheme, or a bearer-schemed symbolic token. -/
inductive AuthHeader
  | missing
  | malformed (s : String)
  | bearer (t : Jwt)
  deriving Repr, DecidableEq

/-- A request as seen by `verifyRequest`: resolved caller address and
authorization header. -/
structure UserRequest where
  ip : Option String
  auth : AuthHeader
  deriving Repr, DecidableEq

/-- Result union of `verifyRequest`. -/
inductive AuthResult
  | ok (u : Option User)
  | err (r : HttpResponse)
  deriving Repr, DecidableEq

/-- Embeds `manager.verifyRequest(force, req, sev)` over the shared `authPool`
bucket: missing address → 400; `canConsume(ip, 1)` false → 429 with
`Retry-After: ceil(timeUntilRefill(ip, 1) / 1000)`; no bearer credential →
the literal `new Response("Unauthorized", {status: 400})` when forced, else
anonymous success; failed `verifyToken` → `consume(ip, 1)` and 401; valid
token → the decoded user, no consumption. -/
def verifyRequest (force : Bool) (req : UserRequest) (nowMs : ℚ) (pool : TokenBucket) :
    AuthResult × TokenBucket :=
  match req.ip with
  | none => (.err (resp 400 "Bad Request"), pool)
  | some ip =>
    if (pool.canConsume nowMs ip 1).1 = false then
      (.err { status := 429, body := "Too Many Requests", location := none,
              retryAfter := some ⌈(pool.timeUntilRefill nowMs ip 1).1 / 1000⌉ }, pool)
    else
      match req.auth with
      | .missing => if force then (.err (resp 400 "Unauthorized"), pool) else (.ok none, pool)
      | .malformed _ =>
        if force then (.err (resp 400 "Unauthorized"), pool) else (.ok none, pool)
      | .bearer t =>
        match verifyToken t (nowMs / 1000) with
        | none => (.err (resp 401 "Unauthorized"), (pool.consume nowMs ip 1).2)
        | some u => (.ok (some u), pool)

/-- JS `String.prototype.startsWith` over the character sequence. -/
def strStartsWith (s p : String) : Bool :=
  s.data.take p.data.length == p.data

/-- JS `String.prototype.substring(n)` (drop the first `n` characters). -/
def strDrop (s : String) (n : ℕ) : String :=
  String.mk (s.data.drop n)

/-- A request as seen by `authService`: the service secret is a plain byte
string, so the header stays a string here. -/
structure ServiceRequest where
  ip : Option String
  authorization : Option String
  deriving Repr, DecidableEq

/-- Result union of `authService`. -/
inductive ServiceAuthResult
  | ok (user : Bool)
  | err (r : HttpResponse)
  deriving Repr, DecidableEq

/-- Embeds `authService(force, req, sev)` over the shared `authPool` bucket;
`timingSafeEqual` is equality of the byte strings (lengths already equal on
that path). A failed comparison runs `consume(ip, 5)` and returns 401. -/
def authService (serviceToken : String) (force : Bool) (req : ServiceRequest)
    (nowMs : ℚ) (pool : TokenBucket) : ServiceAuthResult × TokenBucket :=
  match req.ip with
  | none => (.err (resp 400 "Bad Request"), pool)
  | some ip =>
    if (pool.canConsume nowMs ip 1).1 = false then
      (.err { status := 429, body := "Too Many Requests", location := none,
              retryAfter := some ⌈(pool.timeUntilRefill nowMs ip 1).1 / 1000⌉ }, pool)
    else
      match req.authorization with
      | none => if force then (.err (resp 400 "Unauthorized"), pool) else (.ok false, pool)
      | some tok =>
        if strStartsWith tok "Bearer " = false ∨ tok.length - 7 ≠ serviceToken.length then
          if force then (.err (resp 400 "Unauthorized"), pool) else (.ok false, pool)
        else if strDrop tok 7 ≠ serviceToken then
          (.err (resp 401 "Unauthorized"), (pool.consume nowMs ip 5).2)
        else (.ok true, pool)

/-! ## Device store (`src/db/adapters/AuthenticationAdapter.ts`)

The `account_tokens` table is a list of rows (the unused auto-increment
primary key is omitted); SQL `UNIX_TIMESTAMP()` is the rational `nowSec`.
`refreshDevice` takes the freshly minted 64-hex replacement token as the
input `newTok`. -/

/-- One `account_tokens` row. -/
structure DeviceRow where
  user : ℕ
  token : String
  expires_at : ℚ
  deriving Repr, DecidableEq

/-- One `accounts` row (the stored provider token is irrelevant here). -/
structure AccountRow where
  id : ℕ
  service : String
  user_id : String
  deriving Repr, DecidableEq

/-- Number of rows matched by the rotation UPDATE's WHERE clause
(`token = ? AND expires_at > UNIX_TIMESTAMP()`), i.e. `affectedRows`. -/
def rotateMatches (tbl : List DeviceRow) (nowSec : ℚ) (tok : String) : ℕ :=
  (tbl.filter (fun r => r.token == tok && decide (nowSec < r.expires_at))).length

/-- Effect of the rotation UPDATE: matched rows get the fresh token and a
30-day expiry. -/
def rotateUpdate (tbl : List DeviceRow) (nowSec : ℚ) (newTok tok : String) :
    List DeviceRow :=
  tbl.map (fun r =>
    if r.token == tok && decide (nowSec < r.expires_at)
    then { r with token := newTok, expires_at := nowSec + 30 * 24 * 60 * 60 } else r)

/-- Value resolved by `refreshDevice`. -/
structure RefreshResult where
  id : ℕ
  service : String
  user_id : String
  token : String
  deriving Repr, DecidableEq

/-- Embeds `refreshDevice(token)`: the UPDATE rotates every live row holding
`tok`; zero affected rows throws ("Token not found", embedded as `none`).
The follow-up SELECT goes through the `get` wrapper, which requires exactly
one row (and the SQL scalar subquery requires a unique token row). -/
def refreshDevice (accounts : List AccountRow) (tbl : List DeviceRow) (nowSec : ℚ)
    (newTok tok : String) : Option RefreshResult × List DeviceRow :=
  let changed := rotateMatches tbl nowSec tok
  if changed = 0 then (none, tbl)
  else
    let newTbl := rotateUpdate tbl nowSec newTok tok
    match newTbl.filter (fun r => r.token == newTok) with
    | [r] =>
      match accounts.filter (fun a => a.id == r.user) with
      | [a] => (some { id := a.id, service := a.service, user_id := a.user_id,
                       token := newTok }, newTbl)
      | _ => (none, newTbl)
    | _ => (none, newTbl)

/-! ## Helper lemmas -/

theorem mapGet_mapSet_self {α : Type} (m : List (String × α)) (k : String) (v : α) :
    mapGet (mapSet m k v) k = some v := by
  simp [mapGet, mapSet, List.find?]

theorem mapGet_mapErase_self {α : Type} (m : List (String × α)) (k : String) :
    mapGet (mapErase m k) k = none := by
  have h : List.find? (fun p => p.1 == k) (mapErase m k) = none := by
    rw [List.find?_eq_none]
    intro x hx
    have hx2 := (List.mem_filter.mp hx).2
    simpa using hx2
  simp [mapGet, h]

theorem mapErase_idem {α : Type} (m : List (String × α)) (k : String) :
    mapErase (mapErase m k) k = mapErase m k := by
  simp [mapErase, List.filter_filter]

theorem mapSet_mapSet {α : Type} (m : List (String × α)) (k : String) (v w : α) :
    mapSet (mapSet m k v) k w = mapSet m k w := by
  simp [mapSet, mapErase, List.filter_filter]

/-- Characterization of `TokenBucket.consume`: admission is exactly
`used + n ≤ now * refillRate`, and an admitted call advances the key's
counter to `max (used + n) (now * refillRate - capacity + n)`. -/
theorem consume_spec (b : TokenBucket) (now : ℚ) (key : String) (n : ℚ) :
    ((b.consume now key n).1 = true ↔
      (mapGet b.tokens key).getD 0 + n ≤ now * b.refillRate) ∧
    ((mapGet b.tokens key).getD 0 + n ≤ now * b.refillRate →
      (b.consume now key n).2 =
        { b with
          tokens := mapSet b.tokens key
            (max ((mapGet b.tokens key).getD 0 + n)
              (now * b.refillRate - b.capacity + n)) }) ∧
    (¬ (mapGet b.tokens key).getD 0 + n ≤ now * b.refillRate →
      (b.consume now key n).2 = b) := by
  have hu : b.consume now key n =
      (if (mapGet b.tokens key).getD 0 + n > now * b.refillRate then (false, b)
       else
         (true, { b with
           tokens := mapSet b.tokens key
             (max ((mapGet b.tokens key).getD 0 + n)
               (now * b.refillRate - b.capacity + n)) })) := rfl
  by_cases h : (mapGet b.tokens key).getD 0 + n ≤ now * b.refillRate
  · rw [hu, if_neg (not_lt.mpr h)]
    exact ⟨by simpa using h, fun h2 => rfl, fun h2 => absurd h h2⟩
  · rw [hu, if_pos (not_le.mp h)]
    exact ⟨by simpa using h, fun h2 => absurd h2 h, fun h2 => rfl⟩

/-- State evolution of a burst of single-token consumptions for a fresh key
on a bucket of natural capacity `C`, at a clock where the bucket is full
(`C ≤ now * refillRate`): the first `C` calls all succeed and after the
`k`-th the key's counter is `now * refillRate - C + k`. -/
theorem burst_state (b : TokenBucket) (now : ℚ) (key : String) (C : ℕ)
    (hcap : b.capacity = (C : ℚ)) (hfresh : mapGet b.tokens key = none)
    (hfull : (C : ℚ) ≤ now * b.refillRate) :
    ∀ k, 1 ≤ k → k ≤ C →
      TokenBucket.burst b now key k =
        (List.replicate k true,
         { b with tokens := mapSet b.tokens key (now * b.refillRate - C + k) }) := by
  intro k
  induction k with
  | zero => intro h; omega
  | succ k ih =>
    intro _ hkC
    by_cases hk : 1 ≤ k
    · have hstep := ih hk (by omega)
      have hget : mapGet (mapSet b.tokens key (now * b.refillRate - C + k)) key
          = some (now * b.refillRate - C + k) := mapGet_mapSet_self _ _ _
      have hcast : ((k : ℚ)) + 1 ≤ (C : ℚ) := by
        have h2 : ((k + 1 : ℕ) : ℚ) ≤ (C : ℚ) := by exact_mod_cast hkC
        push_cast at h2
        linarith
      have hcond : ¬ (now * b.refillRate - C + k + 1 > now * b.refillRate) := by
        push_neg
        linarith
      simp only [TokenBucket.burst, hstep, TokenBucket.consume, hget,
        Option.getD_some, hcap, if_neg hcond]
      have hmax : max (now * b.refillRate - C + k + 1)
          (now * b.refillRate - (C : ℚ) + 1) = now * b.refillRate - C + k + 1 := by
        apply max_eq_left
        have hk0 : (0 : ℚ) ≤ (k : ℚ) := by positivity
        linarith
      rw [hmax, mapSet_mapSet]
      have harg : now * b.refillRate - (C : ℚ) + (k : ℚ) + 1
          = now * b.refillRate - (C : ℚ) + ((k + 1 : ℕ) : ℚ) := by
        push_cast
        ring
      rw [harg, List.replicate_succ']
    · have hk0 : k = 0 := by omega
      subst hk0
      have h1C : (1 : ℚ) ≤ (C : ℚ) := by exact_mod_cast hkC
      have hcond : ¬ ((0 : ℚ) + 1 > now * b.refillRate) := by
        push_neg
        linarith
      simp only [TokenBucket.burst, TokenBucket.consume, if_neg hcond, hfresh,
        Option.getD_none, hcap]
      have hmax : max ((0 : ℚ) + 1) (now * b.refillRate - (C : ℚ) + 1)
          = now * b.refillRate - (C : ℚ) + 1 := by
        apply max_eq_right
        linarith
      rw [hmax]
      have harg : now * b.refillRate - (C : ℚ) + 1
          = now * b.refillRate - (C : ℚ) + ((0 + 1 : ℕ) : ℚ) := by
        push_cast
        ring
      rw [harg]
      rfl

/-- Rotating every live row holding `tok` to a distinct fresh token leaves no
row that a later rotation attempt for `tok` could match. -/
theorem rotateMatches_rotateUpdate_zero (tbl : List DeviceRow) (nowSec nowSec2 : ℚ)
    (newTok tok : String) (hfresh : newTok ≠ tok) (hle : nowSec ≤ nowSec2) :
    rotateMatches (rotateUpdate tbl nowSec newTok tok) nowSec2 tok = 0 := by
  unfold rotateMatches rotateUpdate
  rw [List.length_eq_zero]
  rw [List.filter_eq_nil_iff]
  intro r hr
  rw [List.mem_map] at hr
  obtain ⟨r0, _, hr0⟩ := hr
  by_cases hc : (r0.token == tok && decide (nowSec < r0.expires_at)) = true
  · rw [if_pos hc] at hr0
    subst hr0
    simp [hfresh]
  · rw [if_neg hc] at hr0
    subst hr0
    rw [Bool.and_eq_true, not_and] at hc
    by_cases ht : r0.token == tok
    · have := hc ht
      simp only [decide_eq_true_eq] at this
      simp only [Bool.not_eq_true, Bool.and_eq_false_iff]
      right
      simp only [decide_eq_false_iff_not, not_lt]
      have : r0.expires_at ≤ nowSec := not_lt.mp this
      linarith
    · simp [ht]

theorem sqidsDecode_sqidsEncode (n : ℕ) : sqidsDecode (sqidsEncode n) = [n] := by
  simp [sqidsDecode, sqidsEncode, List.all_eq_true]

theorem unprettifyId_prettifyId (n : ℕ) : unprettifyId (prettifyId n) = some n := by
  simp [unprettifyId, prettifyId, sqidsDecode_sqidsEncode]

/-- A rotation attempt whose UPDATE matches no row throws, i.e. resolves
nothing. -/
theorem refreshDevice_none (accounts : List AccountRow) (tbl : List DeviceRow)
    (nowSec : ℚ) (newTok tok : String) (h : rotateMatches tbl nowSec tok = 0) :
    (refreshDevice accounts tbl nowSec newTok tok).1 = none := by
  unfold refreshDevice
  simp only [if_pos h]

/-- Evaluated admission facts for the sample bucket of capacity 5 and rate
0.2 tokens per second used by the witnesses. -/
theorem sampleBucket_canConsume (ip : String) :
    ((TokenBucket.create 5 (1/5)).canConsume 100000 ip 1).1 = true ∧
    ((TokenBucket.create 5 (1/5)).canConsume 0 ip 1).1 = false := by
  constructor
  · simp only [TokenBucket.canConsume, TokenBucket.create, mapGet, List.find?,
      Option.map_none, Option.getD_none, decide_eq_true_eq]
    norm_num
  · simp only [TokenBucket.canConsume, TokenBucket.create, mapGet, List.find?,
      Option.map_none, Option.getD_none, decide_eq_false_iff_not]
    norm_num

/-! ## Claim theorems -/

/-- C9: for every key, token count, and bucket state at a fixed instant,
`canConsume(key, n)` returns `true` exactly when `consume(key, n)` invoked on
the same state at the same instant would return `true`, and `canConsume`
(like `timeUntilRefill`) leaves the bucket's per-key state completely
unchanged. -/
theorem canConsume_iff_consume (b : TokenBucket) (now : ℚ) (key : String) (n : ℚ) :
    (b.canConsume now key n).1 = (b.consume now key n).1 ∧
    (b.canConsume now key n).2 = b ∧
    (b.timeUntilRefill now key n).2 = b := by
  refine ⟨?_, rfl, rfl⟩
  have h := (consume_spec b now key n).1
  by_cases hc : (mapGet b.tokens key).getD 0 + n ≤ now * b.refillRate
  · rw [h.mpr hc]
    simp [TokenBucket.canConsume, hc]
  · have h2 : (b.consume now key n).1 ≠ true := fun ht => hc (h.mp ht)
    have h3 : (b.consume now key n).1 = false := Bool.eq_false_iff.mpr h2
    rw [h3]
    simp [TokenBucket.canConsume, hc]

/-- C3: `consume(key, n)` at time `t` succeeds iff
`used + n ≤ t * refillRate` (`used = 0` for a missing key is definitional in
`Option.getD 0`), and on success sets the counter to
`max (used + n) (t * refillRate - capacity + n)`; consequently, for a bucket
of capacity `C` and refill rate `R` (at any clock instant where a fresh key
has a full bucket, which holds for every real `Date.now()` value), a burst of
`C` single-token consumes for a fresh key all succeed, the `(C+1)`-th at the
same instant fails, and after waiting `1/R` seconds (`1000/R` ms) exactly one
more single-token consume succeeds. -/
theorem tokenBucket_conservation (C : ℕ) (R now : ℚ) (key : String)
    (hC : 1 ≤ C) (hR : 0 < R) (hfull : (C : ℚ) ≤ now * (R / 1000)) :
    (∀ (b : TokenBucket) (t n : ℚ) (k : String),
      ((b.consume t k n).1 = true ↔
        (mapGet b.tokens k).getD 0 + n ≤ t * b.refillRate) ∧
      ((b.consume t k n).1 = true →
        (b.consume t k n).2 =
          { b with
            tokens := mapSet b.tokens k
              (max ((mapGet b.tokens k).getD 0 + n)
                (t * b.refillRate - b.capacity + n)) })) ∧
    (TokenBucket.burst (TokenBucket.create C R) now key C).1 = List.replicate C true ∧
    (TokenBucket.burst (TokenBucket.create C R) now key (C + 1)).1
      = List.replicate C true ++ [false] ∧
    ((TokenBucket.burst (TokenBucket.create C R) now key C).2.consume
      (now + 1000 / R) key 1).1 = true ∧
    (((TokenBucket.burst (TokenBucket.create C R) now key C).2.consume
      (now + 1000 / R) key 1).2.consume (now + 1000 / R) key 1).1 = false := by
  have hgen : ∀ (b : TokenBucket) (t n : ℚ) (k : String),
      ((b.consume t k n).1 = true ↔
        (mapGet b.tokens k).getD 0 + n ≤ t * b.refillRate) ∧
      ((b.consume t k n).1 = true →
        (b.consume t k n).2 =
          { b with
            tokens := mapSet b.tokens k
              (max ((mapGet b.tokens k).getD 0 + n)
                (t * b.refillRate - b.capacity + n)) }) := by
    intro b t n k
    obtain ⟨h1, h2, h3⟩ := consume_spec b t k n
    exact ⟨h1, fun h => h2 (h1.mp h)⟩
  have hR0 : R ≠ 0 := ne_of_gt hR
  have hburst := burst_state (TokenBucket.create C R) now key C rfl rfl hfull C hC le_rfl
  have hTc : now * (R / 1000) - (C : ℚ) + (C : ℚ) = now * (R / 1000) := by ring
  have hS : (TokenBucket.burst (TokenBucket.create C R) now key C).2
      = { capacity := (C : ℚ), refillRate := R / 1000,
          tokens := [(key, now * (R / 1000))] } := by
    rw [hburst]
    simp only [TokenBucket.create]
    rw [show mapSet ([] : List (String × ℚ)) key (now * (R / 1000) - C + C)
        = [(key, now * (R / 1000) - C + C)] from rfl, hTc]
  have hone : (now + 1000 / R) * (R / 1000) = now * (R / 1000) + 1 := by
    field_simp
  have hget : mapGet [(key, now * (R / 1000))] key = some (now * (R / 1000)) :=
    mapGet_mapSet_self [] key (now * (R / 1000))
  have hcond : ¬ (now * (R / 1000) + 1 > (now + 1000 / R) * (R / 1000)) := by
    rw [hone]
    exact lt_irrefl _
  refine ⟨hgen, ?_, ?_, ?_, ?_⟩
  · rw [hburst]
  · have hcond0 : now * (R / 1000) + 1 > now * (R / 1000) := by linarith
    have hfail :
        (((TokenBucket.create C R).burst now key C).2.consume now key 1).1 = false := by
      rw [hS]
      simp [TokenBucket.consume, hget, hcond0]
    show ((TokenBucket.create C R).burst now key C).1
        ++ [(((TokenBucket.create C R).burst now key C).2.consume now key 1).1]
        = List.replicate C true ++ [false]
    rw [hfail, show ((TokenBucket.create C R).burst now key C).1
        = List.replicate C true from by rw [hburst]]
  · rw [hS]
    simp only [TokenBucket.consume, hget, Option.getD_some, if_neg hcond]
  · rw [hS]
    have h1C : (1 : ℚ) ≤ (C : ℚ) := by exact_mod_cast hC
    have hmax : max (now * (R / 1000) + 1)
        ((now + 1000 / R) * (R / 1000) - (C : ℚ) + 1) = now * (R / 1000) + 1 := by
      apply max_eq_left
      rw [hone]
      linarith
    have hget2 : mapGet (mapSet [(key, now * (R / 1000))] key (now * (R / 1000) + 1)) key
        = some (now * (R / 1000) + 1) := mapGet_mapSet_self _ _ _
    have hcond2 : now * (R / 1000) + 1 + 1 > (now + 1000 / R) * (R / 1000) := by
      rw [hone]
      linarith
    simp only [TokenBucket.consume, hget, Option.getD_some, if_neg hcond, hmax,
      hget2, if_pos hcond2]

/-- Witness for C3 with capacity 5, rate 0.2 tokens per second, clock
100000 ms: the burst of 5 succeeds, the 6th fails, and after 5 seconds
exactly one more consume succeeds. -/
theorem tokenBucket_conservation_witness :
    (TokenBucket.burst (TokenBucket.create 5 (1/5)) 100000 "ip" 5).1
      = List.replicate 5 true ∧
    (TokenBucket.burst (TokenBucket.create 5 (1/5)) 100000 "ip" (5 + 1)).1
      = List.replicate 5 true ++ [false] ∧
    ((TokenBucket.burst (TokenBucket.create 5 (1/5)) 100000 "ip" 5).2.consume
      (100000 + 1000 / (1/5)) "ip" 1).1 = true ∧
    (((TokenBucket.burst (TokenBucket.create 5 (1/5)) 100000 "ip" 5).2.consume
      (100000 + 1000 / (1/5)) "ip" 1).2.consume (100000 + 1000 / (1/5)) "ip" 1).1
      = false := by
  have h := tokenBucket_conservation 5 (1/5) 100000 "ip" (by decide) (by norm_num)
    (by norm_num)
  exact ⟨h.2.1, h.2.2.1, h.2.2.2.1, h.2.2.2.2⟩

/-- C4: for an `APIUser` whose id is `prettifyId n` with `n` positive,
verifying the generated token before the ttl elapses resolves the claims
minus timing fields with the numeric id decoded back to `n`; after the ttl
it rejects. -/
theorem signature_roundtrip (n : ℕ) (user : APIUser) (t0 now : ℚ)
    (hn : 0 < n) (hid : user.id = prettifyId n) :
    (now < t0 + 900 →
      verifyToken (generateToken user t0).1 now =
        some { id := n, service := user.service, user_id := user.user_id,
               username := user.username, avatar_url := user.avatar_url }) ∧
    (t0 + 900 < now → verifyToken (generateToken user t0).1 now = none) := by
  constructor
  · intro h
    simp [verifyToken, generateToken, hid, unprettifyId_prettifyId,
      not_le.mpr h, Nat.pos_iff_ne_zero.mp hn]
  · intro h
    have hexp : (generateToken user t0).1.exp ≤ now := by
      simp only [generateToken]
      linarith
    simp [verifyToken, hexp]

/-- Witness for C4 at `n = 3`, issue time 1000 s, checked at 1500 s (inside
the ttl) and 2000 s (past the ttl). -/
theorem signature_roundtrip_witness :
    verifyToken (generateToken
        { id := prettifyId 3, service := "discord", user_id := "42",
          username := "alice", avatar_url := "http addr" } 1000).1 1500 =
      some { id := 3, service := "discord", user_id := "42",
             username := "alice", avatar_url := "http addr" } ∧
    verifyToken (generateToken
        { id := prettifyId 3, service := "discord", user_id := "42",
          username := "alice", avatar_url := "http addr" } 1000).1 2000 = none := by
  constructor
  · exact (signature_roundtrip 3 _ 1000 1500 (by decide) rfl).1 (by norm_num)
  · exact (signature_roundtrip 3 _ 1000 2000 (by decide) rfl).2 (by norm_num)

/-- C10: a correctly signed, unexpired user token whose id claim decodes to
`0` is rejected by `verifyToken`, although `prettifyId 0` is a well-formed
obfuscated id decoding back to `0`. -/
theorem verifyToken_rejects_id_zero (t : Jwt) (nowSec : ℚ)
    (hsig : t.validSig = true) (hexp : nowSec < t.exp) (htype : t.type = "user")
    (hid : unprettifyId t.payload.id = some 0) :
    verifyToken t nowSec = none ∧ unprettifyId (prettifyId 0) = some 0 := by
  refine ⟨?_, unprettifyId_prettifyId 0⟩
  simp [verifyToken, hsig, not_le.mpr hexp, htype, hid]

/-- Witness for C10: a validly signed token for account id 0, checked well
inside its validity window, is rejected. -/
theorem verifyToken_rejects_id_zero_witness :
    verifyToken
      { type := "user",
        payload := { id := prettifyId 0, service := "discord", user_id := "42",
                     username := "alice", avatar_url := "http addr" },
        iat := 0, exp := 900, aud := none, validSig := true } 100 = none ∧
    unprettifyId (prettifyId 0) = some 0 :=
  verifyToken_rejects_id_zero _ 100 rfl (by norm_num) rfl
    (unprettifyId_prettifyId 0)

/-- C1: redeemed credential values are single-use. After `refreshDevice`
successfully rotates refresh token `tok` (the UPDATE that matched it also
replaced the stored value by the fresh `newTok`), any later `refreshDevice`
call with `tok` fails; after `handleInitialToken` successfully redeems a
hand-off token (the entry is deleted before the device is registered), any
later call with the same value returns 401 "Invalid token". -/
theorem credential_single_use
    (accounts accounts2 : List AccountRow) (tbl : List DeviceRow)
    (nowSec nowSec2 : ℚ) (newTok newTok2 tok : String)
    (authTokens : List (String × AuthTokenEntry)) (nowMs nowMs2 : ℚ)
    (tk rt : String) (e : AuthTokenEntry) (reg2 : Option String)
    (hrot : rotateMatches tbl nowSec tok ≠ 0)
    (hfresh : newTok ≠ tok)
    (hlater : nowSec ≤ nowSec2)
    (htk : tk ≠ "")
    (hentry : mapGet authTokens tk = some e)
    (hlive : ¬ e.expiresAt < nowMs) :
    (refreshDevice accounts2 (refreshDevice accounts tbl nowSec newTok tok).2
       nowSec2 newTok2 tok).1 = none ∧
    (handleInitialToken authTokens nowMs (some tk) (some rt)).1 = resp 200 rt ∧
    (handleInitialToken (handleInitialToken authTokens nowMs (some tk) (some rt)).2
       nowMs2 (some tk) reg2).1 = resp 401 "Invalid token" := by
  have hsnd : (refreshDevice accounts tbl nowSec newTok tok).2
      = rotateUpdate tbl nowSec newTok tok := by
    unfold refreshDevice
    simp only [if_neg hrot]
    split
    · split
      · rfl
      · rfl
    · rfl
  have hzero : rotateMatches (refreshDevice accounts tbl nowSec newTok tok).2
      nowSec2 tok = 0 := by
    rw [hsnd]
    exact rotateMatches_rotateUpdate_zero tbl nowSec nowSec2 newTok tok hfresh hlater
  have hfirst : handleInitialToken authTokens nowMs (some tk) (some rt)
      = (resp 200 rt, mapErase authTokens tk) := by
    simp only [handleInitialToken, Option.getD_some, if_neg htk, hentry, if_neg hlive]
  refine ⟨?_, ?_, ?_⟩
  · exact refreshDevice_none accounts2 _ nowSec2 newTok2 tok hzero
  · rw [hfirst]
  · rw [hfirst]
    simp only [handleInitialToken, Option.getD_some, if_neg htk, mapGet_mapErase_self]

/-- Witness for C1: one device row with a live token rotated at time 1000 s
resists replay; one live hand-off entry redeemed at 1000 ms rejects its
second redemption. -/
theorem credential_single_use_witness :
    (refreshDevice []
       (refreshDevice [{ id := 1, service := "discord", user_id := "u" }]
          [{ user := 1, token := "tok", expires_at := 2000 }] 1000 "new" "tok").2
       1000 "new2" "tok").1 = none ∧
    (handleInitialToken [("t", { id := 9, expiresAt := 5000 })] 1000 (some "t")
       (some "rt")).1 = resp 200 "rt" ∧
    (handleInitialToken
       (handleInitialToken [("t", { id := 9, expiresAt := 5000 })] 1000 (some "t")
          (some "rt")).2 1000 (some "t") (some "rt2")).1 = resp 401 "Invalid token" :=
  credential_single_use [{ id := 1, service := "discord", user_id := "u" }] []
    [{ user := 1, token := "tok", expires_at := 2000 }] 1000 1000 "new" "new2" "tok"
    [("t", { id := 9, expiresAt := 5000 })] 1000 1000 "t" "rt"
    { id := 9, expiresAt := 5000 } (some "rt2")
    (by decide) (by decide) le_rfl (by decide) (by decide) (by decide)

/-- C2: a CSRF state or hand-off token redeemed strictly after its recorded
deadline always fails, whether or not the housekeeping sweep has run:
`handleResponse` answers 400 with no side effect for an expired (or already
swept) state, and `handleInitialToken` answers 401 "Token expired, please try
again" for an expired entry (or 401 "Invalid token" once swept). -/
theorem expired_redemption_fails
    (states : List (String × StateEntry)) (authTokens : List (String × AuthTokenEntry))
    (now : ℚ) (s tk : String) (entry : StateEntry) (te : AuthTokenEntry)
    (exchange : Except String ℕ) (freshTok : String) (reg : Option String)
    (hs : s ≠ "") (hentry : mapGet states s = some entry) (hexp : entry.timeout < now)
    (htk : tk ≠ "") (hte : mapGet authTokens tk = some te) (hte2 : te.expiresAt < now) :
    handleResponse states authTokens now (some s) exchange freshTok
      = (resp 400 "Bad Request", states, authTokens) ∧
    (∀ s2, mapGet states s2 = none →
      handleResponse states authTokens now (some s2) exchange freshTok
        = (resp 400 "Bad Request", states, authTokens)) ∧
    handleInitialToken authTokens now (some tk) reg
      = (resp 401 "Token expired, please try again", authTokens) ∧
    (∀ tk2, tk2 ≠ "" → mapGet authTokens tk2 = none →
      (handleInitialToken authTokens now (some tk2) reg).1 = resp 401 "Invalid token") := by
  refine ⟨?_, ?_, ?_, ?_⟩
  · simp only [handleResponse, Option.getD_some, if_neg hs, hentry, if_pos hexp]
  · intro s2 h2
    by_cases h0 : s2 = ""
    · simp [handleResponse, h0]
    · simp only [handleResponse, Option.getD_some, if_neg h0, h2]
  · simp only [handleInitialToken, Option.getD_some, if_neg htk, hte, if_pos hte2]
  · intro tk2 h0 h2
    simp only [handleInitialToken, Option.getD_some, if_neg h0, h2]

/-- Witness for C2 at time 1000 ms with one expired CSRF state and one
expired hand-off token (deadlines 500 ms), plus the swept variants. -/
theorem expired_redemption_fails_witness :
    handleResponse [("s1", { timeout := 500, clientState := "c", redirect := "r" })]
        [("t1", { id := 3, expiresAt := 500 })] 1000 (some "s1") (Except.ok 3) "ft"
      = (resp 400 "Bad Request",
         [("s1", { timeout := 500, clientState := "c", redirect := "r" })],
         [("t1", { id := 3, expiresAt := 500 })]) ∧
    handleInitialToken [("t1", { id := 3, expiresAt := 500 })] 1000 (some "t1")
        (some "rt")
      = (resp 401 "Token expired, please try again",
         [("t1", { id := 3, expiresAt := 500 })]) ∧
    (handleInitialToken [("t1", { id := 3, expiresAt := 500 })] 1000 (some "gone")
        (some "rt")).1 = resp 401 "Invalid token" := by
  have h := expired_redemption_fails
    [("s1", { timeout := 500, clientState := "c", redirect := "r" })]
    [("t1", { id := 3, expiresAt := 500 })] 1000 "s1" "t1"
    { timeout := 500, clientState := "c", redirect := "r" }
    { id := 3, expiresAt := 500 } (Except.ok 3) "ft" (some "rt")
    (by decide) (by decide) (by norm_num) (by decide) (by decide) (by norm_num)
  exact ⟨h.1, h.2.2.1, h.2.2.2 "gone" (by decide) (by decide)⟩

/-- C8: `handleLogin` answers 400 Bad Request exactly when the client state
or redirect value reaches the 40-character cap or the redirect target is not
allow-listed; otherwise it stores the freshly minted state id with deadline
now + 15 minutes and 302-redirects to the provider's login URL carrying that
state id. -/
theorem handleLogin_spec (allowedHosts : List String) (glr : String → String)
    (states : List (String × StateEntry)) (now : ℚ) (freshState : String)
    (stateParam redirectParam : Option String) :
    ((handleLogin allowedHosts glr states now freshState stateParam redirectParam).1
        = resp 400 "Bad Request" ↔
      (40 ≤ (stateParam.getD "").length ∨ 40 ≤ (redirectParam.getD "").length ∨
        (redirectParam.getD "") ∉ allowedHosts)) ∧
    (¬ (40 ≤ (stateParam.getD "").length ∨ 40 ≤ (redirectParam.getD "").length ∨
        (redirectParam.getD "") ∉ allowedHosts) →
      handleLogin allowedHosts glr states now freshState stateParam redirectParam
        = (redirectResp (glr freshState),
           mapSet states freshState
             { timeout := now + 15 * 60 * 1000, clientState := stateParam.getD "",
               redirect := redirectParam.getD "" }) ∧
      mapGet (handleLogin allowedHosts glr states now freshState stateParam
          redirectParam).2 freshState
        = some { timeout := now + 15 * 60 * 1000, clientState := stateParam.getD "",
                 redirect := redirectParam.getD "" }) := by
  by_cases hcond : 40 ≤ (stateParam.getD "").length ∨
      40 ≤ (redirectParam.getD "").length ∨ (redirectParam.getD "") ∉ allowedHosts
  · constructor
    · simp only [handleLogin, if_pos hcond]
      exact iff_of_true trivial hcond
    · intro h
      exact absurd hcond h
  · constructor
    · simp only [handleLogin, if_neg hcond]
      exact iff_of_false (by simp [redirectResp, resp]) hcond
    · intro _
      constructor
      · simp only [handleLogin, if_neg hcond]
      · simp only [handleLogin, if_neg hcond]
        exact mapGet_mapSet_self _ _ _

/-- Witness for C8: the default allow-list admits a short state and the
allow-listed redirect, and rejects a non-allow-listed redirect. -/
theorem handleLogin_spec_witness :
    handleLogin ["target host"] (fun st => String.append "login at " st) [] 1000 "fresh"
        (some "abc123") (some "target host")
      = (redirectResp (String.append "login at " "fresh"),
         [("fresh", { timeout := 1000 + 15 * 60 * 1000, clientState := "abc123",
                      redirect := "target host" })]) ∧
    (handleLogin ["target host"] (fun st => String.append "login at " st) [] 1000 "fresh"
        (some "abc123") (some "evil host")).1 = resp 400 "Bad Request" := by
  constructor
  · exact ((handleLogin_spec ["target host"] (fun st => String.append "login at " st)
      [] 1000 "fresh" (some "abc123") (some "target host")).2 (by decide)).1
  · exact (handleLogin_spec ["target host"] (fun st => String.append "login at " st)
      [] 1000 "fresh" (some "abc123") (some "evil host")).1.mpr (by decide)

/-- C5 counterexample: a call admitted past the limiter that deducts
nothing. With a full fresh bucket, an anonymous (`force = false`, no header)
request is admitted by `canConsume(ip, 1)` yet returns with the bucket state
unchanged, while an actual one-token deduction would have changed it. -/
theorem verifyRequest_admitted_no_deduction :
    ((TokenBucket.create 5 (1/5)).canConsume 100000 "203.0.113.7" 1).1 = true ∧
    verifyRequest false { ip := some "203.0.113.7", auth := AuthHeader.missing } 100000
        (TokenBucket.create 5 (1/5))
      = (AuthResult.ok none, TokenBucket.create 5 (1/5)) ∧
    ((TokenBucket.create 5 (1/5)).consume 100000 "203.0.113.7" 1).2
      ≠ TokenBucket.create 5 (1/5) := by
  have hadm := (sampleBucket_canConsume "203.0.113.7").1
  have hadm2 : ¬ (((TokenBucket.create 5 (1/5)).canConsume 100000 "203.0.113.7" 1).1
      = false) := by
    rw [hadm]
    decide
  refine ⟨hadm, by simp only [verifyRequest, if_neg hadm2,
    if_neg Bool.false_ne_true], ?_⟩
  have hle : (mapGet (TokenBucket.create 5 (1/5)).tokens "203.0.113.7").getD 0 + 1
      ≤ 100000 * (TokenBucket.create 5 (1/5)).refillRate := by
    simp only [TokenBucket.create, mapGet, List.find?, Option.map_none,
      Option.getD_none]
    norm_num
  have h2 := (consume_spec (TokenBucket.create 5 (1/5)) 100000 "203.0.113.7" 1).2.1 hle
  intro hEq
  rw [h2] at hEq
  have h3 := congrArg TokenBucket.tokens hEq
  simp [TokenBucket.create, mapSet, mapErase] at h3

/-- C5 (amended): `verifyRequest` is gated by `canConsume(ip, 1)`; a call
the limiter rejects gets 429 with `Retry-After` equal to
`ceil(timeUntilRefill(ip, 1) / 1000)` seconds and leaves the bucket alone;
an admitted call consumes one token exactly when bearer verification fails,
and leaves the bucket unchanged when no credential is presented or the
credential verifies. -/
theorem verifyRequest_limiter_gate (force : Bool) (req : UserRequest) (nowMs : ℚ)
    (pool : TokenBucket) (ip : String) (hip : req.ip = some ip) :
    ((pool.canConsume nowMs ip 1).1 = false →
      verifyRequest force req nowMs pool =
        (.err { status := 429, body := "Too Many Requests", location := none,
                retryAfter := some ⌈(pool.timeUntilRefill nowMs ip 1).1 / 1000⌉ },
         pool)) ∧
    ((pool.canConsume nowMs ip 1).1 = true →
      (req.auth = AuthHeader.missing → (verifyRequest force req nowMs pool).2 = pool) ∧
      (∀ s, req.auth = AuthHeader.malformed s →
        (verifyRequest force req nowMs pool).2 = pool) ∧
      (∀ t, req.auth = AuthHeader.bearer t → verifyToken t (nowMs / 1000) = none →
        (verifyRequest force req nowMs pool).2 = (pool.consume nowMs ip 1).2) ∧
      (∀ t u, req.auth = AuthHeader.bearer t → verifyToken t (nowMs / 1000) = some u →
        verifyRequest force req nowMs pool = (.ok (some u), pool))) := by
  obtain ⟨rip, rauth⟩ := req
  simp only at hip
  subst hip
  constructor
  · intro hrej
    simp [verifyRequest, hrej]
  · intro hadm
    have hadm2 : ¬ ((pool.canConsume nowMs ip 1).1 = false) := by
      rw [hadm]
      decide
    refine ⟨?_, ?_, ?_, ?_⟩
    · intro h
      simp only at h
      subst h
      cases force <;> simp [verifyRequest, hadm2]
    · intro s h
      simp only at h
      subst h
      cases force <;> simp [verifyRequest, hadm2]
    · intro t h hbad
      simp only at h
      subst h
      simp [verifyRequest, hadm2, hbad]
    · intro t u h hok
      simp only at h
      subst h
      simp [verifyRequest, hadm2, hok]

/-- Witness for C5 (amended): at clock 0 the bucket rejects and answers 429
with the computed Retry-After; at clock 100000 an anonymous admitted call
leaves the bucket unchanged. -/
theorem verifyRequest_limiter_gate_witness :
    verifyRequest true { ip := some "198.51.100.9", auth := AuthHeader.missing } 0
        (TokenBucket.create 5 (1/5))
      = (.err { status := 429, body := "Too Many Requests", location := none,
                retryAfter := some ⌈((TokenBucket.create 5 (1/5)).timeUntilRefill 0
                  "198.51.100.9" 1).1 / 1000⌉ },
         TokenBucket.create 5 (1/5)) ∧
    (verifyRequest false { ip := some "198.51.100.9", auth := AuthHeader.missing }
        100000 (TokenBucket.create 5 (1/5))).2 = TokenBucket.create 5 (1/5) := by
  constructor
  · exact (verifyRequest_limiter_gate true _ 0 _ "198.51.100.9" rfl).1
      (sampleBucket_canConsume "198.51.100.9").2
  · exact ((verifyRequest_limiter_gate false _ 100000 _ "198.51.100.9" rfl).2
      (sampleBucket_canConsume "198.51.100.9").1).1 rfl

/-- C6: when authentication is required and the request carries no bearer
authorization header, the admitted `verifyRequest` call fails with the
response whose body is "Unauthorized" — and whose HTTP status the code sets
to 400 (the repository's OpenAPI document specifies 401 for this case). -/
theorem verifyRequest_forced_no_credential (req : UserRequest) (nowMs : ℚ)
    (pool : TokenBucket) (ip : String)
    (hip : req.ip = some ip)
    (hadm : (pool.canConsume nowMs ip 1).1 = true)
    (hdr : req.auth = AuthHeader.missing) :
    verifyRequest true req nowMs pool = (.err (resp 400 "Unauthorized"), pool) := by
  obtain ⟨rip, rauth⟩ := req
  simp only at hip hdr
  subst hip
  subst hdr
  have hadm2 : ¬ ((pool.canConsume nowMs ip 1).1 = false) := by
    rw [hadm]
    decide
  simp [verifyRequest, hadm2]

/-- Witness for C6: the concrete forced request without a header gets status
400 with body "Unauthorized". -/
theorem verifyRequest_forced_no_credential_witness :
    verifyRequest true { ip := some "198.51.100.9", auth := AuthHeader.missing } 100000
        (TokenBucket.create 5 (1/5))
      = (.err (resp 400 "Unauthorized"), TokenBucket.create 5 (1/5)) :=
  verifyRequest_forced_no_credential _ 100000 _ "198.51.100.9" rfl
    (sampleBucket_canConsume "198.51.100.9").1 rfl

/-- C7: on the shared pool, a failed service-token comparison in
`authService` runs `consume(ip, 5)` — five times the `consume(ip, 1)` a
failed user-token verification runs in `verifyRequest` — so repeated bad
service-token attempts exhaust the same bucket five times faster. -/
theorem service_auth_penalty (svcTok hdr : String) (t : Jwt) (ip : String)
    (nowMs : ℚ) (pool : TokenBucket) (force force2 : Bool)
    (hadm : (pool.canConsume nowMs ip 1).1 = true)
    (hpre : strStartsWith hdr "Bearer " = true)
    (hlen : hdr.length - 7 = svcTok.length)
    (hneq : strDrop hdr 7 ≠ svcTok)
    (hbad : verifyToken t (nowMs / 1000) = none) :
    authService svcTok force { ip := some ip, authorization := some hdr } nowMs pool
      = (.err (resp 401 "Unauthorized"), (pool.consume nowMs ip 5).2) ∧
    verifyRequest force2 { ip := some ip, auth := AuthHeader.bearer t } nowMs pool
      = (.err (resp 401 "Unauthorized"), (pool.consume nowMs ip 1).2) := by
  have hadm2 : ¬ ((pool.canConsume nowMs ip 1).1 = false) := by
    rw [hadm]
    decide
  constructor
  · have hsh : ¬ (strStartsWith hdr "Bearer " = false ∨
        hdr.length - 7 ≠ svcTok.length) := by
      rw [hpre, hlen]
      simp
    simp [authService, hadm2, hsh, hneq]
  · simp [verifyRequest, hadm2, hbad]

/-- Witness for C7: a wrong-but-well-shaped service bearer costs 5 tokens,
a bad user bearer costs 1 token, from the same pool. -/
theorem service_auth_penalty_witness :
    authService "abcdefgh" true
        { ip := some "198.51.100.9", authorization := some "Bearer aaaaaaaa" } 100000
        (TokenBucket.create 5 (1/5))
      = (.err (resp 401 "Unauthorized"),
         ((TokenBucket.create 5 (1/5)).consume 100000 "198.51.100.9" 5).2) ∧
    verifyRequest true
        { ip := some "198.51.100.9",
          auth := AuthHeader.bearer
            { type := "user",
              payload := { id := "x", service := "d", user_id := "u",
                           username := "n", avatar_url := "a" },
              iat := 0, exp := 1, aud := none, validSig := false } } 100000
        (TokenBucket.create 5 (1/5))
      = (.err (resp 401 "Unauthorized"),
         ((TokenBucket.create 5 (1/5)).consume 100000 "198.51.100.9" 1).2) :=
  service_auth_penalty "abcdefgh" "Bearer aaaaaaaa" _ "198.51.100.9" 100000 _ true true
    (sampleBucket_canConsume "198.51.100.9").1 (by decide) (by decide) (by decide)
    (by decide)

end WF
